import Mathlib

/-!
Verification of the VeriWise chat core (session store, submission pipeline,
result normalizer) against its specification.

The embedding follows the source file of the chat page component
(`MultimodalAnalyzer`): the session collection, the active-session pointer,
the staged text/image/video, the single `isLoading` flag, the
`handleSubmit` pipeline and the `formatResult` normalizer.  JavaScript
objects returned by the analysis service are modelled by a `Json` datatype
(a mutual inductive so that all functions are structurally recursive and
reduce inside the kernel); JavaScript numbers are modelled by exact decimal
fixed-point numbers (JSON number literals are decimal strings), and
`Date.now()` by a per-event monotone counter `now` carried in the state
(two calls inside one event handler observe the same tick, matching calls
within one millisecond).
-/

/-- An exact decimal number `m / 10 ^ e`, the value of a JSON number
literal. -/
structure JsNum where
  m : ℤ
  e : ℕ
deriving DecidableEq, Repr

/-- Decimal literal `0.82` and friends: `dec m e` is `m / 10 ^ e`. -/
def dec (m : ℤ) (e : ℕ) : JsNum := ⟨m, e⟩

mutual

/-- A JSON value (mutual with its list of elements and list of fields so
that recursion over it is structural). `num` carries an exact decimal. -/
inductive Json where
  | null : Json
  | bool (b : Bool) : Json
  | num (q : JsNum) : Json
  | str (s : String) : Json
  | arr (elems : JsonList) : Json
  | obj (fields : JsonFields) : Json

/-- A list of JSON values, part of the mutual definition of `Json`. -/
inductive JsonList where
  | nil : JsonList
  | cons (hd : Json) (tl : JsonList) : JsonList

/-- A list of key/value fields of a JSON object. -/
inductive JsonFields where
  | nil : JsonFields
  | cons (key : String) (val : Json) (tl : JsonFields) : JsonFields

end

/-- Number of fields of a field list (models `Object.keys(o).length` on
objects whose keys are distinct, as all objects built here are). -/
def JsonFields.length : JsonFields → Nat
  | .nil => 0
  | .cons _ _ tl => 1 + tl.length

/-- Number of elements of a JSON array. -/
def JsonList.length : JsonList → Nat
  | .nil => 0
  | .cons _ tl => 1 + tl.length

/-- Look a key up in a field list; on duplicate keys the last occurrence
wins, as for objects produced by `JSON.parse`. -/
def JsonFields.find : JsonFields → String → Option Json
  | .nil, _ => none
  | .cons k v tl, key =>
      match tl.find key with
      | some r => some r
      | none => if k = key then some v else none

/-- Property access `j[key]` on a JSON value: `some` the field value for an
object that has the key, `none` (JavaScript `undefined`) otherwise. -/
def getField : Json → String → Option Json
  | .obj fs, key => fs.find key
  | _, _ => none

/-- JavaScript truthiness of a possibly-undefined value: `undefined`,
`null`, `false`, `0` and `""` are falsy; every object and array is truthy
(JSON values cannot be `NaN`). -/
def truthy : Option Json → Bool
  | none => false
  | some .null => false
  | some (.bool b) => b
  | some (.num q) => decide (q.m ≠ 0)
  | some (.str s) => decide (s ≠ "")
  | some (.arr _) => true
  | some (.obj _) => true

/-- JavaScript `a || b`: `a` if truthy, otherwise `b`. -/
def jsOr (a b : Option Json) : Option Json :=
  if truthy a then a else b

/-- Property access on a possibly-undefined base (the base is always an
object or checked truthy before use in the source). -/
def getFieldO (o : Option Json) (key : String) : Option Json :=
  o.bind (fun j => getField j key)

/-- `Object.keys(v).length` as used in the factcheck guard: number of own
enumerable keys (string indices for strings and arrays, fields for
objects, `0` for primitives). -/
def jsKeysLength : Json → Nat
  | .obj fs => fs.length
  | .arr l => l.length
  | .str s => s.length
  | _ => 0

/-- JavaScript `String.prototype.trim()`: strip leading and trailing
whitespace. -/
def jsTrim (s : String) : String :=
  String.mk (((s.data.dropWhile Char.isWhitespace).reverse.dropWhile
    Char.isWhitespace).reverse)

/-- Parse the decimal digits of a character list into a natural number. -/
def digitsVal : List Char → Nat → Option Nat
  | [], acc => some acc
  | c :: cs, acc =>
      if c.isDigit then digitsVal cs (acc * 10 + (c.toNat - '0'.toNat)) else none

/-- JavaScript `ToNumber` on a string: `""` is `0`, an optionally signed
decimal numeral is its value, anything else is `NaN` (`none`). -/
def parseDecimal (s : String) : Option JsNum :=
  let chars := s.data
  if chars = [] then some (dec 0 0) else
  let (neg, body) : Bool × List Char :=
    match chars with
    | '-' :: r => (true, r)
    | '+' :: r => (false, r)
    | l => (false, l)
  let intPart := body.takeWhile Char.isDigit
  let rest := body.dropWhile Char.isDigit
  let signed : ℤ → ℤ := fun n => if neg then -n else n
  match rest with
  | [] =>
      if intPart = [] then none else
      (digitsVal intPart 0).map (fun n => dec (signed n) 0)
  | '.' :: frac =>
      if intPart = [] ∧ frac = [] then none else
      match digitsVal intPart 0, digitsVal frac 0 with
      | some ip, some fp =>
          some (dec (signed (ip * 10 ^ frac.length + fp)) frac.length)
      | _, _ => none
  | _ => none

/-- JavaScript `ToNumber` coercion of a possibly-undefined JSON value;
`none` models `NaN`.  (Arrays coerce through their string form; the empty
array is `0`, a one-element array coerces as its element when numeric,
longer arrays are `NaN`.) -/
def jsToNumber : Option Json → Option JsNum
  | none => none
  | some .null => some (dec 0 0)
  | some (.bool b) => some (if b then dec 1 0 else dec 0 0)
  | some (.num q) => some q
  | some (.str s) => parseDecimal (jsTrim s)
  | some (.arr .nil) => some (dec 0 0)
  | some (.arr (.cons (.num q) .nil)) => some q
  | some (.arr _) => none
  | some (.obj _) => none

/-- Multiplication of a decimal by `100`, as applied to every score and
confidence field before display. -/
def JsNum.mul100 (v : JsNum) : JsNum := ⟨v.m * 100, v.e⟩

/-- `Number.prototype.toFixed(1)` on the value `v.m / 10 ^ v.e`: round to
the closest multiple of `1/10`, ties towards the larger candidate
(`n = ⌊v * 10 + 1/2⌋`, by integer Euclidean division since the denominator
is positive), and print with one fractional digit. -/
def toFixed1 (v : JsNum) : String :=
  let n : ℤ := Int.ediv (20 * v.m + 10 ^ v.e) (2 * 10 ^ v.e)
  let m := n.natAbs
  (if n < 0 then "-" else "") ++ toString (m / 10) ++ "." ++ toString (m % 10)

/-- `(v * 100).toFixed(1) + "%"` as applied by the normalizer to every
confidence/score field (`NaN` prints as `"NaN"`). -/
def pctString (v : Option Json) : String :=
  (match (jsToNumber v).map JsNum.mul100 with
   | none => "NaN"
   | some q => toFixed1 q) ++ "%"

/-- Fractional digits of a decimal: the last `e` digits of `r`, left-padded
with zeros, with trailing zeros removed (JavaScript prints the shortest
form). -/
def fracDigitsStr (r : Nat) (e : Nat) : String :=
  let raw := toString r
  let padded := String.mk (List.replicate (e - raw.length) '0') ++ raw
  String.mk (padded.data.reverse.dropWhile (· = '0')).reverse

/-- Decimal rendering of a JavaScript number (`1.0` prints as `"1"`,
`0.5` as `"0.5"`). -/
def numDecimalString (v : JsNum) : String :=
  let den : Nat := 10 ^ v.e
  let ip := v.m.natAbs / den
  let r := v.m.natAbs % den
  let sign := if v.m < 0 then "-" else ""
  if r = 0 then sign ++ toString ip
  else sign ++ toString ip ++ "." ++ fracDigitsStr r v.e

mutual
/-- `JSON.stringify` of a JSON value. -/
def Json.stringify : Json → String
  | .null => "null"
  | .bool b => if b then "true" else "false"
  | .num q => numDecimalString q
  | .str s => "\"" ++ s ++ "\""
  | .arr l => "[" ++ JsonList.stringifyElems l ++ "]"
  | .obj fs => "\x7b" ++ JsonFields.stringifyFields fs ++ "\x7d"

/-- Comma-separated stringification of array elements. -/
def JsonList.stringifyElems : JsonList → String
  | .nil => ""
  | .cons j .nil => j.stringify
  | .cons j tl => j.stringify ++ "," ++ JsonList.stringifyElems tl

/-- Comma-separated stringification of object fields. -/
def JsonFields.stringifyFields : JsonFields → String
  | .nil => ""
  | .cons k v .nil => "\"" ++ k ++ "\":" ++ v.stringify
  | .cons k v tl => "\"" ++ k ++ "\":" ++ v.stringify ++ "," ++ JsonFields.stringifyFields tl
end

mutual
/-- Text produced when a value is interpolated as a React child: strings
and numbers render as text, `null`/booleans render as nothing, arrays
render their elements in order (plain objects are a render error, shown
here as empty text). -/
def Json.renderText : Json → String
  | .null => ""
  | .bool _ => ""
  | .str s => s
  | .num q => numDecimalString q
  | .arr l => JsonList.renderText l
  | .obj _ => ""

/-- Concatenated rendering of an array of React children. -/
def JsonList.renderText : JsonList → String
  | .nil => ""
  | .cons j tl => Json.renderText j ++ JsonList.renderText tl
end

/-- Rendering of a possibly-undefined React child (`undefined` renders as
nothing). -/
def renderNode : Option Json → String
  | none => ""
  | some j => j.renderText

/-- A normalized display section: its React `key`, its heading, and the
text lines it displays, in order. -/
structure NormSection where
  key : String
  title : String
  lines : List String
deriving DecidableEq, Repr

/-- The fallback section pushed when no recognized result kind matched. -/
def fallbackSection : NormSection :=
  { key := "fallback", title := "No Results",
    lines := ["No recognizable analysis data found."] }

/-- The ordered sections built by `formatResult` before the fallback rule:
one guarded block per recognized result kind, in the source's fixed
order. -/
def sectionsOf (data : Json) : List NormSection :=
  let results : Option Json := jsOr (getField data "results") (some (Json.obj .nil))
  let summaryText := jsOr (getFieldO results "summary") (getField data "summary")
  let combined := getFieldO results "combined"
  let bias := getFieldO results "bias"
  let aiImage := getFieldO results "ai_image"
  let manipulated := getFieldO results "manipulated"
  let video := jsOr (jsOr (getFieldO results "video") (getFieldO results "video_analysis"))
    (getFieldO results "video_result")
  let factcheck := getFieldO results "factcheck"
  (if truthy summaryText then
    [{ key := "summary", title := "Summary", lines := [renderNode summaryText] }]
   else []) ++
  (if truthy combined then
    [{ key := "combined", title := "Combined Analysis",
       lines := [renderNode (getFieldO combined "short")] ++
         (match getFieldO combined "confidence_score" with
          | none => []
          | some v => ["Confidence: " ++ pctString (some v)]) }]
   else []) ++
  (if truthy bias then
    [{ key := "bias", title := "Bias Analysis",
       lines := ["Label: " ++ renderNode (getFieldO bias "label"),
                 "Score: " ++ pctString (getFieldO bias "score")] }]
   else []) ++
  (if truthy aiImage then
    [{ key := "ai_image", title := "AI Image Detection",
       lines := ["Prediction: " ++ renderNode (getFieldO aiImage "predicted_class"),
                 "Confidence: " ++ pctString (getFieldO aiImage "confidence")] }]
   else []) ++
  (if truthy manipulated then
    [{ key := "manipulated", title := "Manipulation Detection",
       lines := ["Prediction: " ++ renderNode (getFieldO manipulated "prediction"),
                 "Confidence: " ++ pctString (getFieldO manipulated "confidence")] ++
         (match getFieldO manipulated "is_manipulated" with
          | none => []
          | some v => ["Is Manipulated: " ++ (if truthy (some v) then "Yes" else "No")]) ++
         (if truthy (getFieldO manipulated "summary") then
            [renderNode (getFieldO manipulated "summary")]
          else []) }]
   else []) ++
  (if truthy video then
    [{ key := "video", title := "Video Analysis",
       lines :=
         (if truthy (getFieldO video "overall_verdict") then
            ["Verdict: " ++ renderNode (getFieldO (getFieldO video "overall_verdict") "verdict"),
             "Risk Level: " ++
               renderNode (getFieldO (getFieldO video "overall_verdict") "risk_level")]
          else []) ++
         (if truthy (getFieldO video "visual_detection") then
            ["Visual Detection:",
             "Overall: " ++
               renderNode (getFieldO (getFieldO video "visual_detection") "overall_prediction") ++
               " (" ++ pctString (getFieldO (getFieldO video "visual_detection")
                 "overall_confidence") ++ ")"]
          else []) ++
         (match getFieldO video "audio_detection" with
          | some (.arr l) => "Audio Detection:" :: audioLines l
          | _ => []) }]
   else []) ++
  (if truthy factcheck ∧ 0 < jsKeysLengthO factcheck then
    [{ key := "factcheck", title := "Fact Check",
       lines :=
         (if truthy (getFieldO factcheck "raw_text") then
            ["Text: \"" ++ renderNode (getFieldO factcheck "raw_text") ++ "\""]
          else []) ++
         (if truthy (getFieldO factcheck "summary") then
            [match getFieldO factcheck "summary" with
             | some (.obj fs) => (Json.obj fs).stringify
             | some (.arr l) => (Json.arr l).stringify
             | v => renderNode v]
          else []) ++
         (match getFieldO factcheck "claim_detail" with
          | some (.arr l) => "Claim Details:" :: claimLines l
          | _ => []) ++
         (if truthy (getFieldO factcheck "token_count") then
            ["Token Count: " ++ renderNode (getFieldO factcheck "token_count")]
          else []) }]
   else [])
where
  /-- Keys-length of a possibly-undefined value. -/
  jsKeysLengthO : Option Json → Nat
    | none => 0
    | some j => jsKeysLength j
  /-- One line per audio-detection entry: `label: score%`. -/
  audioLines : JsonList → List String
    | .nil => []
    | .cons a tl =>
        (renderNode (getField a "label") ++ ": " ++ pctString (getField a "score")) ::
          audioLines tl
  /-- One opaquely stringified line per claim detail. -/
  claimLines : JsonList → List String
    | .nil => []
    | .cons c tl => c.stringify :: claimLines tl

/-- The normalizer `formatResult`: `none` for a falsy input (the source
returns `null`), otherwise the ordered recognized sections, with exactly
one fallback section when no recognized kind matched. -/
def formatResult (data : Json) : Option (List NormSection) :=
  if truthy (some data) then
    let ss := sectionsOf data
    some (if ss.isEmpty then [fallbackSection] else ss)
  else none

/-- A timeline entry: the tagged variant stored in `messages`.  A user
message records its text (`null` when empty), optional image/video object
URLs and a timestamp; an assistant message stores the raw response `data`;
an error message stores its diagnostic text. -/
inductive Message where
  | user (id : String) (text : Option String) (image : Option String)
      (video : Option String) (timestamp : String) : Message
  | assistant (id : String) (data : Json) (timestamp : String) : Message
  | error (id : String) (text : String) (timestamp : String) : Message

/-- The `id` of a timeline entry. -/
def Message.id : Message → String
  | .user i _ _ _ _ => i
  | .assistant i _ _ => i
  | .error i _ _ => i

/-- Whether an entry is a user message. -/
def Message.isUser : Message → Bool
  | .user _ _ _ _ _ => true
  | _ => false

/-- Whether an entry is an assistant message. -/
def Message.isAssistant : Message → Bool
  | .assistant _ _ _ => true
  | _ => false

/-- Whether an entry is an error message. -/
def Message.isErr : Message → Bool
  | .error _ _ _ => true
  | _ => false

/-- A chat session: `{ id, title, messages, createdAt }`. -/
structure Chat where
  id : String
  title : String
  messages : List Message
  createdAt : String

/-- What a submission closes over for its completion handlers: the id of
the chat that was active when it was issued, the submitted text, and the
multipart form content (the subset of text/image/video that was staged). -/
structure PendingReq where
  chatId : String
  text : String
  reqText : Option String
  reqImage : Option String
  reqVideo : Option String
deriving DecidableEq, Repr

/-- How a pending request resolves: `ok` with a parsed JSON body, a
non-success HTTP status whose body parses to `some` JSON (or fails to
parse), or a network/parse exception with its message. -/
inductive Outcome where
  | ok (data : Json) : Outcome
  | httpErr (status : Nat) (body : Option Json) : Outcome
  | netErr (msg : String) : Outcome

/-- The component state of `MultimodalAnalyzer`: the session collection,
the active-session pointer, the active timeline view, the staged
text/image/video, the global `isLoading` flag, plus bookkeeping for the
embedding: the queue of in-flight requests, the `Date.now()` tick, and
counters of object-URL acquisitions and releases (the source never calls
`URL.revokeObjectURL`, so no event increments `urlsRevoked`). -/
structure AppState where
  chats : List Chat
  currentChatId : Option String
  messages : List Message
  text : String
  image : Option String
  video : Option String
  isLoading : Bool
  pending : List PendingReq
  now : Nat
  urlsCreated : Nat
  urlsRevoked : Nat

/-- The initial state: empty collection, no active session, nothing
staged, idle. -/
def initState : AppState :=
  { chats := [], currentChatId := none, messages := [], text := "",
    image := none, video := none, isLoading := false, pending := [],
    now := 0, urlsCreated := 0, urlsRevoked := 0 }

/-- `createNewChat`: insert a fresh empty session at the front, make it
active, clear the view and all staged input. -/
def createNewChat (s : AppState) : AppState :=
  let newChat : Chat :=
    { id := toString s.now, title := "New Analysis", messages := [],
      createdAt := "T" ++ toString s.now }
  { s with
    chats := newChat :: s.chats, currentChatId := some newChat.id,
    messages := [], text := "", image := none, video := none }

/-- `switchChat(chatId)`: if the session exists, make it active, load its
messages into the view and clear staged input; otherwise do nothing. -/
def switchChat (s : AppState) (chatId : String) : AppState :=
  match s.chats.find? (fun c => c.id = chatId) with
  | some chat =>
      { s with
        currentChatId := some chatId, messages := chat.messages,
        text := "", image := none, video := none }
  | none => s

/-- `deleteChat(chatId)`: remove the session; if it was active, the new
active session is the head of the remaining collection (loading its
messages), or none with an empty view when the collection is now empty. -/
def deleteChat (s : AppState) (chatId : String) : AppState :=
  let updatedChats := s.chats.filter (fun c => c.id ≠ chatId)
  if s.currentChatId = some chatId then
    match updatedChats with
    | first :: _ =>
        { s with
          chats := updatedChats, currentChatId := some first.id,
          messages := first.messages }
    | [] =>
        { s with chats := updatedChats, currentChatId := none, messages := [] }
  else
    { s with chats := updatedChats }

/-- `handleSubmit` up to the `await`: validation (`!text && !image &&
!video` fails silently), the user message with freshly created object URLs,
on-demand session creation titled from the first 30 characters of the
text, the optimistic append to the view, `isLoading` set, and the request
enqueued with its form data. -/
def handleSubmit (s : AppState) : AppState :=
  if s.text = "" ∧ s.image = none ∧ s.video = none then s
  else
    let ts := "T" ++ toString s.now
    let uid := toString s.now
    let (imgUrl, u1) : Option String × Nat :=
      match s.image with
      | none => (none, s.urlsCreated)
      | some _ => (some ("blob:" ++ toString s.urlsCreated), s.urlsCreated + 1)
    let (vidUrl, u2) : Option String × Nat :=
      match s.video with
      | none => (none, u1)
      | some _ => (some ("blob:" ++ toString u1), u1 + 1)
    let userMessage : Message :=
      .user uid (if s.text = "" then none else some s.text) imgUrl vidUrl ts
    let (chats1, activeChatId) : List Chat × String :=
      match s.currentChatId with
      | some cid => (s.chats, cid)
      | none =>
          let newChat : Chat :=
            { id := uid,
              title := if s.text = "" then "New Analysis"
                       else s.text.take 30 ++ "...",
              messages := [], createdAt := ts }
          (newChat :: s.chats, newChat.id)
    let req : PendingReq :=
      { chatId := activeChatId, text := s.text,
        reqText := if s.text = "" then none else some s.text,
        reqImage := s.image, reqVideo := s.video }
    { s with
      chats := chats1, currentChatId := some activeChatId,
      messages := s.messages ++ [userMessage], isLoading := true,
      pending := s.pending ++ [req], urlsCreated := u2 }

/-- The branch of the completion handler before `finally`: on a non-OK
response an error message from the (best-effort parsed) body; on OK, the
`data.results.summary` log throws into `catch` when `results` is absent or
null, otherwise the assistant message is appended and the active chat of
the originating submission is synchronized to the updated view (renaming a
still-default title); on a network/parse error, an error message. -/
def applyOutcome (s : AppState) (req : PendingReq) (o : Outcome) : AppState :=
  let ts := "T" ++ toString s.now
  let mid := toString (s.now + 1)
  match o with
  | .httpErr status body =>
      let errBody := body.getD (Json.obj (.cons "error"
        (.str ("HTTP " ++ toString status)) .nil))
      { s with
        messages := s.messages ++
          [.error mid ("Server error: " ++ errBody.stringify) ts] }
  | .netErr msg =>
      { s with messages := s.messages ++ [.error mid ("Error: " ++ msg) ts] }
  | .ok data =>
      match data, getField data "results" with
      | .null, _ =>
          { s with messages := s.messages ++ [.error mid
              ("Error: " ++ "Cannot read properties of null (reading results)") ts] }
      | _, none =>
          { s with messages := s.messages ++ [.error mid
              ("Error: " ++ "Cannot read properties of undefined (reading summary)") ts] }
      | _, some .null =>
          { s with messages := s.messages ++ [.error mid
              ("Error: " ++ "Cannot read properties of null (reading summary)") ts] }
      | _, some _ =>
          let assistantMessage : Message := .assistant mid data ts
          let updated := s.messages ++ [assistantMessage]
          { s with
            messages := updated,
            chats := s.chats.map (fun chat =>
              if chat.id = req.chatId then
                { chat with
                  messages := updated,
                  title := if chat.title = "New Analysis" ∧ req.text ≠ ""
                           then req.text.take 30 ++ "..." else chat.title }
              else chat) }

/-- Completion of the oldest in-flight request: the outcome branch above,
then the `finally` block (`isLoading` off, text and both attachments
cleared).  With nothing in flight, nothing can complete. -/
def stepComplete (s : AppState) (o : Outcome) : AppState :=
  match s.pending with
  | [] => s
  | req :: rest =>
      let s1 := applyOutcome s req o
      { s1 with
        isLoading := false, text := "", image := none, video := none,
        pending := rest }

/-- A user-interface event.  `clickSubmit` honours the button's `disabled`
attribute (`isLoading || (!text.trim() && !image && !video)`);
`pressEnter` is the textarea's Enter-without-Shift handler, which calls
`handleSubmit` directly; `complete` delivers the response of the oldest
in-flight request. -/
inductive Ev where
  | typeText (t : String) : Ev
  | selectImage (f : String) : Ev
  | selectVideo (f : String) : Ev
  | removeImage : Ev
  | removeVideo : Ev
  | newChat : Ev
  | switchTo (chatId : String) : Ev
  | deleteOf (chatId : String) : Ev
  | pressEnter : Ev
  | clickSubmit : Ev
  | complete (o : Outcome) : Ev

/-- One event step: the `Date.now()` tick advances, then the corresponding
handler from the source runs on the current state. -/
def step (s0 : AppState) (e : Ev) : AppState :=
  let s := { s0 with now := s0.now + 1 }
  match e with
  | .typeText t => { s with text := t }
  | .selectImage f => { s with image := some f }
  | .selectVideo f => { s with video := some f }
  | .removeImage => { s with image := none }
  | .removeVideo => { s with video := none }
  | .newChat => createNewChat s
  | .switchTo chatId => switchChat s chatId
  | .deleteOf chatId => deleteChat s chatId
  | .pressEnter => handleSubmit s
  | .clickSubmit =>
      if s.isLoading ∨ (jsTrim s.text = "" ∧ s.image = none ∧ s.video = none)
      then s else handleSubmit s
  | .complete o => stepComplete s o

/-- Run a sequence of events from a state. -/
def run (s : AppState) (evs : List Ev) : AppState :=
  evs.foldl step s

/-- The stored timeline of the session with the given id (empty when no
such session exists). -/
def timelineOf (s : AppState) (chatId : String) : List Message :=
  ((s.chats.find? (fun c => c.id = chatId)).map Chat.messages).getD []

/-- The JSON value `JSON.stringify` writes for an optional string field of
a stored message (`null` for an absent text/image/video). -/
def encOptStr : Option String → Json
  | none => Json.null
  | some s => Json.str s

/-- Reading an optional string field back from the parsed document. -/
def decOptStr : Json → Option (Option String)
  | .null => some none
  | .str s => some (some s)
  | _ => none

/-- The JSON record `JSON.stringify` writes for one timeline entry —
exactly the fields `handleSubmit` stores on each user, assistant and error
message. -/
def encodeMessage : Message → Json
  | .user id text image video ts =>
      Json.obj (.cons "id" (.str id) (.cons "type" (.str "user")
        (.cons "text" (encOptStr text) (.cons "image" (encOptStr image)
        (.cons "video" (encOptStr video)
        (.cons "timestamp" (.str ts) .nil))))))
  | .assistant id data ts =>
      Json.obj (.cons "id" (.str id) (.cons "type" (.str "assistant")
        (.cons "data" data (.cons "timestamp" (.str ts) .nil))))
  | .error id text ts =>
      Json.obj (.cons "id" (.str id) (.cons "type" (.str "error")
        (.cons "text" (.str text) (.cons "timestamp" (.str ts) .nil))))

/-- A string-valued field of a JSON object. -/
def getStr (j : Json) (key : String) : Option String :=
  match getField j key with
  | some (.str s) => some s
  | _ => none

/-- Reading one timeline entry back from the parsed document, dispatching
on its `type` tag — the fields the renderer reads from a restored
message. -/
def decodeMessage (j : Json) : Option Message :=
  match getStr j "type" with
  | some "user" =>
      match getStr j "id", getField j "text", getField j "image",
          getField j "video", getStr j "timestamp" with
      | some id, some tj, some ij, some vj, some ts =>
          match decOptStr tj, decOptStr ij, decOptStr vj with
          | some t, some i, some v => some (.user id t i v ts)
          | _, _, _ => none
      | _, _, _, _, _ => none
  | some "assistant" =>
      match getStr j "id", getField j "data", getStr j "timestamp" with
      | some id, some d, some ts => some (.assistant id d ts)
      | _, _, _ => none
  | some "error" =>
      match getStr j "id", getStr j "text", getStr j "timestamp" with
      | some id, some t, some ts => some (.error id t ts)
      | _, _, _ => none
  | _ => none

/-- The JSON array written for a stored message list. -/
def encodeMessages : List Message → JsonList
  | [] => .nil
  | m :: rest => .cons (encodeMessage m) (encodeMessages rest)

/-- Reading a message list back from the parsed document. -/
def decodeMessages : JsonList → Option (List Message)
  | .nil => some []
  | .cons j rest =>
      match decodeMessage j, decodeMessages rest with
      | some m, some ms => some (m :: ms)
      | _, _ => none

/-- The JSON record `JSON.stringify` writes for one chat session —
`{ id, title, messages, createdAt }` as built by `createNewChat`. -/
def encodeChat (c : Chat) : Json :=
  Json.obj (.cons "id" (.str c.id) (.cons "title" (.str c.title)
    (.cons "messages" (.arr (encodeMessages c.messages))
    (.cons "createdAt" (.str c.createdAt) .nil))))

/-- Reading one chat session back from the parsed document (the load
effect reads `parsedChats[0].id` and `parsedChats[0].messages`; the
sidebar reads `id` and `title`). -/
def decodeChat (j : Json) : Option Chat :=
  match getStr j "id", getStr j "title", getField j "messages",
      getStr j "createdAt" with
  | some id, some title, some (.arr l), some createdAt =>
      (decodeMessages l).map (fun ms =>
        { id := id, title := title, messages := ms, createdAt := createdAt })
  | _, _, _, _ => none

/-- The JSON array written for the session collection, in order. -/
def encodeChatList : List Chat → JsonList
  | [] => .nil
  | c :: rest => .cons (encodeChat c) (encodeChatList rest)

/-- The document the persist effect writes under the fixed key
`multimodal_chats`: the JSON array `JSON.stringify(chats)` produces
(`JSON.parse` restores exactly this document from the stored string). -/
def encodeChats (cs : List Chat) : Json :=
  Json.arr (encodeChatList cs)

/-- Reading a session-collection list back from the parsed document. -/
def decodeChatList : JsonList → Option (List Chat)
  | .nil => some []
  | .cons j rest =>
      match decodeChat j, decodeChatList rest with
      | some c, some cs => some (c :: cs)
      | _, _ => none

/-- Reading the full session collection back from the parsed document. -/
def decodeChats : Json → Option (List Chat)
  | .arr l => decodeChatList l
  | _ => none

/-- The persist effect of the chat page: whenever the session collection
changes, `localStorage.setItem` writes `JSON.stringify(chats)` under the
fixed key `multimodal_chats` only when `chats.length > 0` — an empty
collection never overwrites the stored value.  The durable store is the
value under the fixed key (`none` when nothing was ever stored). -/
def persistIfNonEmpty (chats : List Chat) (store : Option Json) : Option Json :=
  if chats.isEmpty then store else some (encodeChats chats)

/-- The load step of the mount effect: with nothing stored under the fixed
key, the `if (savedChats)` branch is skipped and the collection stays
empty; otherwise `JSON.parse` restores the stored document as the session
collection — `none` models the exception a malformed or non-collection
value raises (the source has no try/catch and no silent fallback). -/
def loadChats : Option Json → Option (List Chat)
  | none => some []
  | some j => decodeChats j

/-- The persistence-facing state of the chat page: the session collection,
the active-session pointer, the active timeline view, the durable slot
under the fixed key, and the `Date.now()` tick (staged input and the
request pipeline are the `AppState` model above). -/
structure ChatStore where
  chats : List Chat
  currentChatId : Option String
  messages : List Message
  store : Option Json
  now : Nat

/-- The mount effect: read the fixed key; when a collection was saved,
restore it and make its head (the most recent session) active with its
messages in view; otherwise start empty with no active session.  `none`
propagates the `JSON.parse` exception. -/
def ChatStore.start (store : Option Json) : Option ChatStore :=
  (loadChats store).map (fun parsedChats =>
    match parsedChats with
    | first :: rest =>
        { chats := first :: rest, currentChatId := some first.id,
          messages := first.messages, store := store, now := 0 }
    | [] =>
        { chats := [], currentChatId := none, messages := [], store := store,
          now := 0 })

/-- `createNewChat` on the persistent page: insert a fresh empty session at
the front and make it active with an empty view; the persist effect then
runs on the changed (non-empty) collection. -/
def ChatStore.createSession (ps : ChatStore) : ChatStore :=
  let newChat : Chat :=
    { id := toString ps.now, title := "New Analysis", messages := [],
      createdAt := "T" ++ toString ps.now }
  let chats := newChat :: ps.chats
  { chats := chats, currentChatId := some newChat.id, messages := [],
    store := persistIfNonEmpty chats ps.store, now := ps.now + 1 }

/-- `deleteChat` on the persistent page: remove the session, move the
active pointer and view to the head of the remainder (or to none and empty)
when the deleted session was active; the persist effect then runs on the
changed collection — skipping the write when it became empty. -/
def ChatStore.deleteSession (ps : ChatStore) (chatId : String) : ChatStore :=
  let updatedChats := ps.chats.filter (fun c => c.id ≠ chatId)
  let store := persistIfNonEmpty updatedChats ps.store
  if ps.currentChatId = some chatId then
    match updatedChats with
    | first :: rest =>
        { chats := first :: rest, currentChatId := some first.id,
          messages := first.messages, store := store, now := ps.now + 1 }
    | [] =>
        { chats := [], currentChatId := none, messages := [], store := store,
          now := ps.now + 1 }
  else
    { chats := updatedChats, currentChatId := ps.currentChatId,
      messages := ps.messages, store := store, now := ps.now + 1 }

/-- The concrete response body of the bias test case:
`{ "results": { "bias": { "label": "Biased", "score": 0.82 } } }`. -/
def biasInput : Json :=
  Json.obj (.cons "results"
    (Json.obj (.cons "bias"
      (Json.obj (.cons "label" (.str "Biased")
        (.cons "score" (.num (dec 82 2)) .nil))) .nil)) .nil)

/-- A response body whose `bias` key holds an empty object:
`{ "results": { "bias": {} } }`. -/
def emptyBiasInput : Json :=
  Json.obj (.cons "results" (Json.obj (.cons "bias" (Json.obj .nil) .nil)) .nil)

/-- The claim's reading of "non-empty" for a JSON value: an empty string,
empty array, empty object, or `null` is empty. -/
def nonEmptyJson : Json → Bool
  | .null => false
  | .bool _ => true
  | .num _ => true
  | .str s => decide (s ≠ "")
  | .arr l => decide (l.length ≠ 0)
  | .obj fs => decide (fs.length ≠ 0)

/-- The claim's "present and non-empty" for a possibly-absent value. -/
def presentNonEmpty : Option Json → Bool
  | none => false
  | some j => nonEmptyJson j

/-- The claim's premise for the fallback rule: some recognized key
(`summary`/`combined`/`bias`/`ai_image`/`manipulated`/`video` and its
aliases/`factcheck`, top-level or under `results`) is present and
non-empty. -/
def recognizedPresentNonEmpty (data : Json) : Bool :=
  let results := jsOr (getField data "results") (some (Json.obj .nil))
  presentNonEmpty (getFieldO results "summary") ||
  presentNonEmpty (getField data "summary") ||
  presentNonEmpty (getFieldO results "combined") ||
  presentNonEmpty (getFieldO results "bias") ||
  presentNonEmpty (getFieldO results "ai_image") ||
  presentNonEmpty (getFieldO results "manipulated") ||
  presentNonEmpty (getFieldO results "video") ||
  presentNonEmpty (getFieldO results "video_analysis") ||
  presentNonEmpty (getFieldO results "video_result") ||
  presentNonEmpty (getFieldO results "factcheck")

/-- The source's actual guards, all off: no recognized key holds a truthy
value (factcheck additionally needs a non-empty key set), so no section is
emitted before the fallback rule. -/
def noSectionGuards (data : Json) : Prop :=
  let results := jsOr (getField data "results") (some (Json.obj .nil))
  truthy (jsOr (getFieldO results "summary") (getField data "summary")) = false ∧
  truthy (getFieldO results "combined") = false ∧
  truthy (getFieldO results "bias") = false ∧
  truthy (getFieldO results "ai_image") = false ∧
  truthy (getFieldO results "manipulated") = false ∧
  truthy (jsOr (jsOr (getFieldO results "video") (getFieldO results "video_analysis"))
    (getFieldO results "video_result")) = false ∧
  ¬(truthy (getFieldO results "factcheck") = true ∧
      0 < sectionsOf.jsKeysLengthO (getFieldO results "factcheck"))

/-- Whether an event is the Enter-key submission path. -/
def Ev.isPressEnter : Ev → Bool
  | .pressEnter => true
  | _ => false

/-- Whether an event is a session creation or deletion. -/
def Ev.isCreateOrDelete : Ev → Bool
  | .newChat => true
  | .deleteOf _ => true
  | _ => false

/-- The active-session pointer names an existing session or nothing. -/
def ActiveOk (s : AppState) : Prop :=
  s.currentChatId = none ∨ ∃ c ∈ s.chats, some c.id = s.currentChatId

/-- The in-flight queue matches the single `isLoading` flag: at most one
request in flight, and none when idle. -/
def SingleFlight (s : AppState) : Prop :=
  s.pending.length ≤ 1 ∧ (s.isLoading = false → s.pending = [])

/-- A successful response body whose `results.summary` is the given
text. -/
def okBody (txt : String) : Outcome :=
  .ok (Json.obj (.cons "results" (Json.obj (.cons "summary" (.str txt) .nil)) .nil))

/-- Two complete submissions, one in each of two sessions (sessions `"1"`
and `"5"` by creation tick). -/
def twoChatTrace : List Ev :=
  [.newChat, .typeText "a", .clickSubmit, .complete (okBody "sa"),
   .newChat, .typeText "b", .clickSubmit, .complete (okBody "sb")]

/-- The same, followed by a third submission in session `"5"` whose
response arrives only after the user has switched to session `"1"`. -/
def switchDuringPendingTrace : List Ev :=
  twoChatTrace ++ [.typeText "c", .clickSubmit, .switchTo "1", .complete (okBody "sc")]

/-- A state with text staged and one submission in flight. -/
def pendingState : AppState :=
  run initState [.typeText "x", .pressEnter]

/-- The state right after mounting the chat page with an empty durable
store. -/
def psLoaded : ChatStore :=
  { chats := [], currentChatId := none, messages := [], store := none,
    now := 0 }

/-- One `createNewChat` after the fresh mount (the new session gets id
`"0"` from the tick). -/
def psAfterCreate : ChatStore := psLoaded.createSession

/-- Deleting the only session: the collection becomes empty, which the
persist effect does not write back. -/
def psAfterDelete : ChatStore := psAfterCreate.deleteSession "0"

/-- A concrete non-empty session collection holding one session with all
three message kinds. -/
def demoChats : List Chat :=
  [{ id := "1", title := "hello...",
     messages := [Message.user "2" (some "hello") none none "T2",
                  Message.assistant "3" biasInput "T3",
                  Message.error "4" "Error: boom" "T4"],
     createdAt := "T1" }]

theorem decodeMessage_encodeMessage (m : Message) :
    decodeMessage (encodeMessage m) = some m := by
  cases m with
  | user id t i v ts => cases t <;> cases i <;> cases v <;> rfl
  | assistant id d ts => rfl
  | error id t ts => rfl

theorem decodeMessages_encodeMessages (ms : List Message) :
    decodeMessages (encodeMessages ms) = some ms := by
  induction ms with
  | nil => rfl
  | cons m rest ih =>
      simp [encodeMessages, decodeMessages, decodeMessage_encodeMessage, ih]

theorem decodeChat_encodeChat (c : Chat) :
    decodeChat (encodeChat c) = some c := by
  cases c with
  | mk id title ms createdAt =>
      simp [encodeChat, decodeChat, getStr, getField, JsonFields.find,
        decodeMessages_encodeMessages]

theorem decodeChats_encodeChats (cs : List Chat) :
    decodeChats (encodeChats cs) = some cs := by
  suffices h : ∀ l : List Chat, decodeChatList (encodeChatList l) = some l by
    simpa [decodeChats, encodeChats] using h cs
  intro l
  induction l with
  | nil => rfl
  | cons c rest ih =>
      simp [encodeChatList, decodeChatList, decodeChat_encodeChat, ih]

theorem handleSubmit_invalid (s : AppState)
    (h : s.text = "" ∧ s.image = none ∧ s.video = none) : handleSubmit s = s := by
  simp [handleSubmit, h]

theorem handleSubmit_append (s : AppState)
    (hv : ¬(s.text = "" ∧ s.image = none ∧ s.video = none)) :
    ∃ u r, (handleSubmit s).messages = s.messages ++ [u] ∧
      (handleSubmit s).pending = s.pending ++ [r] ∧
      Message.isUser u = true ∧
      (handleSubmit s).isLoading = true := by
  unfold handleSubmit
  rw [if_neg hv]
  cases hi : s.image <;> cases hw : s.video <;> cases hc : s.currentChatId <;>
    exact ⟨_, _, rfl, rfl, rfl, rfl⟩

theorem stepComplete_append (s : AppState) (req : PendingReq)
    (rest : List PendingReq) (hp : s.pending = req :: rest) (o : Outcome) :
    ∃ m, (stepComplete s o).messages = s.messages ++ [m] ∧
      (stepComplete s o).pending = rest ∧
      (Message.isAssistant m = true ∨ Message.isErr m = true) := by
  unfold stepComplete
  rw [hp]
  cases o with
  | httpErr status body => exact ⟨_, rfl, rfl, Or.inr rfl⟩
  | netErr msg => exact ⟨_, rfl, rfl, Or.inr rfl⟩
  | ok data =>
      cases data with
      | null => exact ⟨_, rfl, rfl, Or.inr rfl⟩
      | bool b => exact ⟨_, rfl, rfl, Or.inr rfl⟩
      | num q => exact ⟨_, rfl, rfl, Or.inr rfl⟩
      | str s1 => exact ⟨_, rfl, rfl, Or.inr rfl⟩
      | arr l => exact ⟨_, rfl, rfl, Or.inr rfl⟩
      | obj fs =>
          rcases hf : fs.find "results" with _ | j
          · simp only [applyOutcome, getField, hf]
            exact ⟨_, rfl, by trivial, Or.inr rfl⟩
          · cases j <;> simp only [applyOutcome, getField, hf] <;>
              first
                | exact ⟨_, rfl, by trivial, Or.inr rfl⟩
                | exact ⟨_, rfl, by trivial, Or.inl rfl⟩

/-- A state identical on the fields `SingleFlight` inspects keeps
`SingleFlight`. -/
theorem singleFlight_of_untouched {s t : AppState} (hp : t.pending = s.pending)
    (hl : t.isLoading = s.isLoading) (hs : SingleFlight s) : SingleFlight t := by
  constructor
  · rw [hp]; exact hs.1
  · intro h0; rw [hp]; exact hs.2 (by rw [← hl]; exact h0)

/-- With nothing in flight, a completion event is a no-op. -/
theorem stepComplete_pending_nil (s : AppState) (o : Outcome)
    (h : s.pending = []) : stepComplete s o = s := by
  unfold stepComplete
  rw [h]

/-- Any event other than an Enter-key submission preserves `SingleFlight`. -/
theorem singleFlight_step (s : AppState) (e : Ev) (he : e.isPressEnter = false)
    (hs : SingleFlight s) : SingleFlight (step s e) := by
  cases e with
  | typeText t => exact singleFlight_of_untouched rfl rfl hs
  | selectImage f => exact singleFlight_of_untouched rfl rfl hs
  | selectVideo f => exact singleFlight_of_untouched rfl rfl hs
  | removeImage => exact singleFlight_of_untouched rfl rfl hs
  | removeVideo => exact singleFlight_of_untouched rfl rfl hs
  | newChat => exact singleFlight_of_untouched rfl rfl hs
  | switchTo chatId =>
      refine singleFlight_of_untouched ?_ ?_ hs <;>
        (simp only [step, switchChat]; split <;> rfl)
  | deleteOf chatId =>
      refine singleFlight_of_untouched ?_ ?_ hs <;>
        (simp only [step, deleteChat]; split <;> first | rfl | (split <;> rfl))
  | pressEnter => simp [Ev.isPressEnter] at he
  | clickSubmit =>
      simp only [step]
      split
      · exact singleFlight_of_untouched rfl rfl hs
      · rename_i hcond
        have hnl : ({ s with now := s.now + 1 } : AppState).isLoading = false := by
          rcases hb : s.isLoading with _ | _
          · rfl
          · exact absurd (Or.inl hb) hcond
        have hpe : ({ s with now := s.now + 1 } : AppState).pending = [] := hs.2 hnl
        by_cases hval : ({ s with now := s.now + 1 } : AppState).text = "" ∧
            ({ s with now := s.now + 1 } : AppState).image = none ∧
            ({ s with now := s.now + 1 } : AppState).video = none
        · rw [handleSubmit_invalid _ hval]
          exact singleFlight_of_untouched rfl rfl hs
        · obtain ⟨u, r, _, hp, _, hl⟩ := handleSubmit_append _ hval
          constructor
          · rw [hp, hpe]; simp
          · intro h0; rw [hl] at h0; cases h0
  | complete o =>
      simp only [step]
      obtain hpd | ⟨req, rest, hpd⟩ :
          s.pending = [] ∨ ∃ req rest, s.pending = req :: rest := by
        cases s.pending
        · exact Or.inl rfl
        · exact Or.inr ⟨_, _, rfl⟩
      · rw [stepComplete_pending_nil { s with now := s.now + 1 } o hpd]
        exact singleFlight_of_untouched rfl rfl hs
      · have hrest : rest = [] := by
          have h1 : s.pending.length ≤ 1 := hs.1
          rw [hpd] at h1
          simpa using h1
        obtain ⟨m, _, hpr, _⟩ :=
          stepComplete_append { s with now := s.now + 1 } req rest hpd o
        constructor
        · rw [hpr, hrest]; simp
        · intro _; rw [hpr, hrest]

/-- `createNewChat` and `deleteChat` keep the active pointer valid. -/
theorem activeOk_step (s : AppState) (e : Ev) (he : e.isCreateOrDelete = true)
    (h : ActiveOk s) : ActiveOk (step s e) := by
  cases e <;> simp [Ev.isCreateOrDelete] at he
  case newChat =>
      right
      exact ⟨_, List.mem_cons_self _ _, rfl⟩
  case deleteOf chatId =>
      by_cases hc : s.currentChatId = some chatId
      · simp only [step, deleteChat]
        rw [if_pos (show ({ s with now := s.now + 1 } : AppState).currentChatId =
          some chatId from hc)]
        rcases hfil : ({ s with now := s.now + 1 } : AppState).chats.filter
            (fun c => c.id ≠ chatId) with _ | ⟨f, rest⟩
        · rw [hfil]
          left; rfl
        · rw [hfil]
          right
          exact ⟨f, List.mem_cons_self _ _, rfl⟩
      · simp only [step, deleteChat]
        rw [if_neg (show ¬({ s with now := s.now + 1 } : AppState).currentChatId =
          some chatId from hc)]
        rcases h with hnone | ⟨c, hmem, hcid⟩
        · left; exact hnone
        · right
          refine ⟨c, ?_, hcid⟩
          refine List.mem_filter.mpr ⟨hmem, ?_⟩
          simp only [decide_eq_true_eq]
          intro heq
          exact hc (by rw [← hcid, heq])

/-- C5: for the response body `{results:{bias:{label:"Biased",score:0.82}}}`
the normalizer produces exactly one section, titled "Bias Analysis", whose
displayed score is "82.0%". -/
theorem c5_bias_normalizer :
    formatResult biasInput =
      some [{ key := "bias", title := "Bias Analysis",
              lines := ["Label: Biased", "Score: 82.0%"] }] := by decide

/-- C6 counterexample: for `{results:{bias:{}}}` no recognized key is
present-and-non-empty (in the claim's sense), yet the normalizer does not
produce the fallback section — it produces a Bias section for the empty
truthy object. -/
theorem c6_counterexample :
    recognizedPresentNonEmpty emptyBiasInput = false ∧
    formatResult emptyBiasInput ≠ some [fallbackSection] ∧
    formatResult emptyBiasInput =
      some [{ key := "bias", title := "Bias Analysis",
              lines := ["Label: ", "Score: NaN%"] }] := by decide

/-- C6 (amended): for a truthy response where no recognized key holds a
truthy value (and the factcheck key set is empty), the normalizer produces
exactly one fallback section; in particular for the empty object. -/
theorem c6_fallback_normalizer (data : Json) (ht : truthy (some data) = true)
    (hg : noSectionGuards data) :
    formatResult data = some [fallbackSection] := by
  simp only [noSectionGuards] at hg
  obtain ⟨h1, h2, h3, h4, h5, h6, h7⟩ := hg
  have hsec : sectionsOf data = [] := by
    simp only [sectionsOf]
    rw [if_neg h7]
    simp [h1, h2, h3, h4, h5, h6]
  simp [formatResult, ht, hsec]

/-- C6 witness: the concrete `{}` case. -/
theorem c6_fallback_normalizer_witness :
    truthy (some (Json.obj .nil)) = true ∧
    formatResult (Json.obj .nil) = some [fallbackSection] :=
  ⟨by decide, c6_fallback_normalizer (Json.obj .nil) (by decide)
    (by refine ⟨rfl, rfl, rfl, rfl, rfl, rfl, ?_⟩; decide)⟩

/-- C2 counterexample: typing text and pressing Enter twice starts two
concurrent submissions — the Enter handler does not check the Pending
flag, so two requests are in flight at once. -/
theorem c2_counterexample :
    (run initState [.typeText "hi", .pressEnter, .pressEnter]).pending.length = 2 ∧
    (run initState [.typeText "hi", .pressEnter, .pressEnter]).isLoading = true := by
  decide

/-- C2 (amended): in any interaction that submits only through the submit
button (no Enter-key submissions), there is never more than one request in
flight: the button is disabled while one is Pending, and the state machine
is Idle → Pending → Idle. -/
theorem c2_single_flight_button (evs : List Ev)
    (h : evs.all (fun e => !e.isPressEnter) = true) :
    (run initState evs).pending.length ≤ 1 := by
  suffices hInv : ∀ (l : List Ev) (s : AppState), SingleFlight s →
      l.all (fun e => !e.isPressEnter) = true → SingleFlight (run s l) by
    exact (hInv evs initState ⟨by simp [initState], fun _ => rfl⟩ h).1
  intro l
  induction l with
  | nil => exact fun s hs _ => hs
  | cons e rest ih =>
      intro s hs hall
      simp only [List.all_cons, Bool.and_eq_true, Bool.not_eq_true'] at hall
      exact ih _ (singleFlight_step s e hall.1 hs) (by
        simpa [List.all_eq_true] using hall.2)

/-- C2 witness: a button-only interaction with a completed and a second
submission. -/
theorem c2_single_flight_button_witness :
    (run initState [.typeText "hi", .clickSubmit, .complete (okBody "s"),
      .typeText "again", .clickSubmit]).pending.length ≤ 1 :=
  c2_single_flight_button _ (by decide)

/-- C3 counterexample: whitespace-only text with no attachments, submitted
via the Enter key, appends a user message and issues a request — the
handler checks emptiness (`!text`), not blankness. -/
theorem c3_counterexample :
    jsTrim " " = "" ∧
    (run initState [.typeText " ", .pressEnter]).messages.length = 1 ∧
    (run initState [.typeText " ", .pressEnter]).pending.length = 1 := by
  decide

/-- C3 (amended): a submit invocation with the empty string and no staged
attachments appends no message and issues no request, through either the
Enter key or the submit button. -/
theorem c3_validation_guard (s : AppState) (ht : s.text = "")
    (hi : s.image = none) (hv : s.video = none) :
    (step s .pressEnter).messages = s.messages ∧
    (step s .pressEnter).pending = s.pending ∧
    (step s .clickSubmit).messages = s.messages ∧
    (step s .clickSubmit).pending = s.pending := by
  have h1 : handleSubmit { s with now := s.now + 1 } = { s with now := s.now + 1 } :=
    handleSubmit_invalid _ ⟨ht, hi, hv⟩
  have h2 : step s .clickSubmit = { s with now := s.now + 1 } := by
    have hcond : jsTrim ({ s with now := s.now + 1 } : AppState).text = "" ∧
        ({ s with now := s.now + 1 } : AppState).image = none ∧
        ({ s with now := s.now + 1 } : AppState).video = none := by
      refine ⟨?_, hi, hv⟩
      show jsTrim s.text = ""
      rw [ht]
      decide
    simp only [step]
    exact if_pos (Or.inr hcond)
  have e1 := congrArg AppState.messages h1
  have e2 := congrArg AppState.pending h1
  have e3 := congrArg AppState.messages h2
  have e4 := congrArg AppState.pending h2
  exact ⟨e1, e2, e3, e4⟩

/-- C3 witness: the initial state has empty text and no attachments. -/
theorem c3_validation_guard_witness :
    (step initState .pressEnter).messages = initState.messages ∧
    (step initState .pressEnter).pending = initState.pending ∧
    (step initState .clickSubmit).messages = initState.messages ∧
    (step initState .clickSubmit).pending = initState.pending :=
  c3_validation_guard initState rfl rfl rfl

/-- C4: every completion of an in-flight submission — success, HTTP error
or exception — runs the `finally` block: the pipeline is Idle again and the
staged text, image and video are cleared, so the staged state after any two
outcomes is identical. -/
theorem c4_clear_on_any_outcome (s : AppState) (h : s.pending ≠ [])
    (o o2 : Outcome) :
    (step s (.complete o)).isLoading = false ∧
    (step s (.complete o)).text = "" ∧
    (step s (.complete o)).image = none ∧
    (step s (.complete o)).video = none ∧
    (step s (.complete o)).text = (step s (.complete o2)).text ∧
    (step s (.complete o)).image = (step s (.complete o2)).image ∧
    (step s (.complete o)).video = (step s (.complete o2)).video ∧
    (step s (.complete o)).isLoading = (step s (.complete o2)).isLoading := by
  obtain ⟨req, rest, hpd⟩ : ∃ req rest, s.pending = req :: rest := by
    cases hc : s.pending
    · exact absurd hc h
    · exact ⟨_, _, rfl⟩
  have key : ∀ o' : Outcome, (step s (.complete o')).isLoading = false ∧
      (step s (.complete o')).text = "" ∧
      (step s (.complete o')).image = none ∧
      (step s (.complete o')).video = none := by
    intro o'
    simp only [step]
    unfold stepComplete
    rw [show ({ s with now := s.now + 1 } : AppState).pending = req :: rest from hpd]
    exact ⟨rfl, rfl, rfl, rfl⟩
  obtain ⟨k1, k2, k3, k4⟩ := key o
  obtain ⟨l1, l2, l3, l4⟩ := key o2
  exact ⟨k1, k2, k3, k4, by rw [k2, l2], by rw [k3, l3], by rw [k4, l4],
    by rw [k1, l1]⟩

/-- C4 witness: a pending submission completed with a network error and
compared against an HTTP 500. -/
theorem c4_clear_on_any_outcome_witness :
    (step pendingState (.complete (.netErr "boom"))).isLoading = false ∧
    (step pendingState (.complete (.netErr "boom"))).text = "" ∧
    (step pendingState (.complete (.netErr "boom"))).image = none ∧
    (step pendingState (.complete (.netErr "boom"))).video = none ∧
    (step pendingState (.complete (.netErr "boom"))).text =
      (step pendingState (.complete (.httpErr 500 none))).text ∧
    (step pendingState (.complete (.netErr "boom"))).image =
      (step pendingState (.complete (.httpErr 500 none))).image ∧
    (step pendingState (.complete (.netErr "boom"))).video =
      (step pendingState (.complete (.httpErr 500 none))).video ∧
    (step pendingState (.complete (.netErr "boom"))).isLoading =
      (step pendingState (.complete (.httpErr 500 none))).isLoading :=
  c4_clear_on_any_outcome pendingState (by decide) (.netErr "boom") (.httpErr 500 none)

/-- C7: `deleteChat(id)` removes the session (the collection becomes the
filtered collection); the new active pointer is the head of the remainder
(or none) when the deleted session was active and is unchanged otherwise;
and over every sequence of session creations and deletions the active
session is an existing session id or none. -/
theorem c7_delete_session (s : AppState) (chatId : String) (evs : List Ev)
    (hall : evs.all Ev.isCreateOrDelete = true) :
    (step s (.deleteOf chatId)).chats = s.chats.filter (fun c => c.id ≠ chatId) ∧
    (step s (.deleteOf chatId)).currentChatId =
      (if s.currentChatId = some chatId
       then ((s.chats.filter (fun c => c.id ≠ chatId)).head?).map Chat.id
       else s.currentChatId) ∧
    ActiveOk (run initState evs) := by
  refine ⟨?_, ?_, ?_⟩
  · simp only [step, deleteChat]
    split
    · split <;> rename_i hfil <;> rw [hfil]
    · rfl
  · by_cases hc : s.currentChatId = some chatId
    · rw [if_pos hc]
      simp only [step, deleteChat]
      rw [if_pos (show ({ s with now := s.now + 1 } : AppState).currentChatId =
        some chatId from hc)]
      split <;> rename_i hfil <;> rw [hfil]
      · rfl
      · rfl
    · rw [if_neg hc]
      simp only [step, deleteChat]
      rw [if_neg (show ¬({ s with now := s.now + 1 } : AppState).currentChatId =
        some chatId from hc)]
  · suffices hInv : ∀ (l : List Ev) (t : AppState), ActiveOk t →
        l.all Ev.isCreateOrDelete = true → ActiveOk (run t l) by
      exact hInv evs initState (Or.inl rfl) hall
    intro l
    induction l with
    | nil => exact fun t ht _ => ht
    | cons e rest ih =>
        intro t ht hall2
        simp only [List.all_cons, Bool.and_eq_true] at hall2
        exact ih _ (activeOk_step t e hall2.1 ht) (by
          simpa [List.all_eq_true] using hall2.2)

/-- C7 witness: delete the older of two sessions while the newer is
active, and a create/delete trace. -/
theorem c7_delete_session_witness :
    (step (run initState [.newChat, .newChat]) (.deleteOf "1")).chats =
      (run initState [.newChat, .newChat]).chats.filter (fun c => c.id ≠ "1") ∧
    (step (run initState [.newChat, .newChat]) (.deleteOf "1")).currentChatId =
      (if (run initState [.newChat, .newChat]).currentChatId = some "1"
       then (((run initState [.newChat, .newChat]).chats.filter
         (fun c => c.id ≠ "1")).head?).map Chat.id
       else (run initState [.newChat, .newChat]).currentChatId) ∧
    ActiveOk (run initState [.newChat, .newChat, .deleteOf "2"]) :=
  c7_delete_session (run initState [.newChat, .newChat]) "1"
    [.newChat, .newChat, .deleteOf "2"] (by decide)

/-- C8 counterexample: the stored timeline of session "5" holds messages
"7" and "9" after its own submissions, but after a further submission in
"5" whose response arrives once the user has switched to session "1", the
success handler overwrites session "5" with the viewed timeline of "1"
plus the new assistant message — message "7" has been removed, so the
stored timeline is not append-only. -/
theorem c8_counterexample :
    (timelineOf (run initState twoChatTrace) "5").map Message.id = ["7", "9"] ∧
    (timelineOf (run initState switchDuringPendingTrace) "5").map Message.id =
      ["3", "5", "13"] ∧
    ("7" ∈ (timelineOf (run initState twoChatTrace) "5").map Message.id) ∧
    ("7" ∉ (timelineOf (run initState switchDuringPendingTrace) "5").map Message.id) := by
  decide

/-- C8 (amended): a submission that passes validation while nothing else
is in flight appends a User message to the viewed timeline immediately —
before the network call completes — and the completion appends the
corresponding Assistant or Error message strictly after it, extending the
timeline append-only across the submission. -/
theorem c8_message_ordering (s : AppState) (hp : s.pending = [])
    (hv : ¬(s.text = "" ∧ s.image = none ∧ s.video = none)) (o : Outcome) :
    ∃ u m, (step s .pressEnter).messages = s.messages ++ [u] ∧
      (run s [.pressEnter, .complete o]).messages = s.messages ++ [u, m] ∧
      Message.isUser u = true ∧
      (Message.isAssistant m = true ∨ Message.isErr m = true) := by
  obtain ⟨u, r, hm, hpe, hu, _⟩ := handleSubmit_append { s with now := s.now + 1 }
    (show ¬(({ s with now := s.now + 1 } : AppState).text = "" ∧
      ({ s with now := s.now + 1 } : AppState).image = none ∧
      ({ s with now := s.now + 1 } : AppState).video = none) from hv)
  have hpend1 : (handleSubmit { s with now := s.now + 1 }).pending = [r] := by
    rw [hpe, show ({ s with now := s.now + 1 } : AppState).pending = [] from hp]
    rfl
  obtain ⟨m, hm2, _, htag⟩ := stepComplete_append
    { handleSubmit { s with now := s.now + 1 } with
      now := (handleSubmit { s with now := s.now + 1 }).now + 1 } r []
    hpend1 o
  refine ⟨u, m, hm, ?_, hu, htag⟩
  calc (run s [Ev.pressEnter, Ev.complete o]).messages
      = (handleSubmit { s with now := s.now + 1 }).messages ++ [m] := hm2
    _ = (s.messages ++ [u]) ++ [m] := by rw [hm]
    _ = s.messages ++ [u, m] := by simp

/-- C8 witness: a single text submission from a fresh state, completed
with a network error. -/
theorem c8_message_ordering_witness :
    ∃ u m, (step (run initState [.typeText "w"]) .pressEnter).messages =
        (run initState [.typeText "w"]).messages ++ [u] ∧
      (run (run initState [.typeText "w"])
        [.pressEnter, .complete (.netErr "boom")]).messages =
        (run initState [.typeText "w"]).messages ++ [u, m] ∧
      Message.isUser u = true ∧
      (Message.isAssistant m = true ∨ Message.isErr m = true) :=
  c8_message_ordering (run initState [.typeText "w"]) (by decide) (by decide)
    (.netErr "boom")

/-- C9: the code acquires a preview resource (`URL.createObjectURL`) when a
staged image is submitted and never calls `URL.revokeObjectURL`, so the
acquisition/release counts are unbalanced (1 acquired, 0 released) — the
code violates the pairing contract the claim states. -/
theorem c9_preview_url_leak :
    (run initState [.selectImage "photo.png", .clickSubmit]).urlsCreated = 1 ∧
    (run initState [.selectImage "photo.png", .clickSubmit]).urlsRevoked = 0 := by
  decide

/-- C10: when a success response body has no `results` property, the
handler's `data.results.summary` access throws, the catch branch appends
an Error message — not an Assistant message — and no chat is updated, so
the normalizer (and its fallback section) is never reached. -/
theorem c10_missing_results_error (s : AppState) (h : s.pending ≠ [])
    (data : Json) (hres : getField data "results" = none) (hnn : data ≠ Json.null) :
    (step s (.complete (.ok data))).messages =
      s.messages ++ [Message.error (toString (s.now + 2))
        ("Error: " ++ "Cannot read properties of undefined (reading summary)")
        ("T" ++ toString (s.now + 1))] ∧
    (step s (.complete (.ok data))).chats = s.chats := by
  obtain ⟨req, rest, hpd⟩ : ∃ req rest, s.pending = req :: rest := by
    cases hc : s.pending
    · exact absurd hc h
    · exact ⟨_, _, rfl⟩
  simp only [step]
  unfold stepComplete
  rw [show ({ s with now := s.now + 1 } : AppState).pending = req :: rest from hpd]
  unfold applyOutcome
  cases data with
  | null => exact absurd rfl hnn
  | bool b => exact ⟨rfl, rfl⟩
  | num q => exact ⟨rfl, rfl⟩
  | str s2 => exact ⟨rfl, rfl⟩
  | arr l => exact ⟨rfl, rfl⟩
  | obj fs =>
      simp only [hres]
      exact ⟨by trivial, by trivial⟩

/-- C10 witness: a pending submission whose success body is `{}`. -/
theorem c10_missing_results_error_witness :
    (step pendingState (.complete (.ok (Json.obj .nil)))).messages =
      pendingState.messages ++ [Message.error (toString (pendingState.now + 2))
        ("Error: " ++ "Cannot read properties of undefined (reading summary)")
        ("T" ++ toString (pendingState.now + 1))] ∧
    (step pendingState (.complete (.ok (Json.obj .nil)))).chats =
      pendingState.chats :=
  c10_missing_results_error pendingState (by decide) (Json.obj .nil) rfl
    (by intro hcontra; exact Json.noConfusion hcontra)

/-- C1 counterexample: creating one session and then deleting it leaves the
collection empty, but — because the persist effect skips empty collections —
the durable store was not rewritten after that mutation: it still holds the
deleted session, and the next process start reloads and re-activates it. -/
theorem c1_counterexample :
    ChatStore.start none = some psLoaded ∧
    psAfterDelete.chats.length = 0 ∧
    (ChatStore.start psAfterDelete.store).map (fun ps => ps.chats.length) =
      some 1 ∧
    (ChatStore.start psAfterDelete.store).map ChatStore.currentChatId =
      some (some "0") :=
  ⟨rfl, by decide, by decide, by decide⟩

/-- C1 (amended): the chat page persists the session collection under the
fixed key after every mutation that leaves it non-empty, and persisting a
non-empty collection and then loading at the next process start yields an
equal ordered collection of sessions and messages. -/
theorem c1_roundtrip_persistence (cs : List Chat) (store : Option Json)
    (h : cs ≠ []) (ps : ChatStore) (chatId : String)
    (hdel : (ps.deleteSession chatId).chats.isEmpty = false) :
    (ChatStore.start (persistIfNonEmpty cs store)).map ChatStore.chats =
      some cs ∧
    (ps.createSession).store = some (encodeChats (ps.createSession).chats) ∧
    (ps.deleteSession chatId).store =
      some (encodeChats ((ps.deleteSession chatId).chats)) := by
  refine ⟨?_, ?_, ?_⟩
  · have hp : persistIfNonEmpty cs store = some (encodeChats cs) := by
      simp [persistIfNonEmpty, h]
    rw [hp]
    cases cs with
    | nil => exact absurd rfl h
    | cons first rest =>
        simp [ChatStore.start, loadChats, decodeChats_encodeChats]
  · simp [ChatStore.createSession, persistIfNonEmpty]
  · have hch : (ps.deleteSession chatId).chats =
        ps.chats.filter (fun c => c.id ≠ chatId) := by
      simp only [ChatStore.deleteSession]
      split
      · split <;> rename_i hfil <;> first | rfl | rw [hfil]
      · rfl
    have hst : (ps.deleteSession chatId).store =
        persistIfNonEmpty (ps.chats.filter (fun c => c.id ≠ chatId)) ps.store := by
      simp only [ChatStore.deleteSession]
      split
      · split <;> rfl
      · rfl
    rw [hch] at hdel
    rw [hst, hch]
    unfold persistIfNonEmpty
    rw [show (ps.chats.filter (fun c => c.id ≠ chatId)).isEmpty = false from hdel]
    simp

/-- C1 witness: the demo collection (one session with all three message
kinds) round-trips through a restart, and the concrete create and delete
operations persist the resulting non-empty collections. -/
theorem c1_roundtrip_persistence_witness :
    (ChatStore.start (persistIfNonEmpty demoChats none)).map ChatStore.chats =
      some demoChats ∧
    (psAfterCreate.createSession).store =
      some (encodeChats (psAfterCreate.createSession).chats) ∧
    (psAfterCreate.deleteSession "9").store =
      some (encodeChats ((psAfterCreate.deleteSession "9").chats)) :=
  c1_roundtrip_persistence demoChats none (by simp [demoChats])
    psAfterCreate "9" (by decide)
